import Mathlib

/-!
Verification development for the AI Soundtrack Generator repository.

The repository contains two variants of the Suno music-generation poller
(`src/services/sunoService.ts` and `src/unnamed/part_005`, both exporting
`pollForMusic`) and three variants of the Gemini analysis path
(`src/services/geminiService.ts` — browser-direct client,
`src/unnamed/part_004` — client calling the app's own API route, and
`src/unnamed/part_001` — the `api/gemini-analyze` server handler).

Each TypeScript function relevant to the claims is shallowly embedded below
as an executable Lean function.  Network I/O is modelled by passing the
responses a run observes as explicit inputs (a list of poll responses for
the pollers, a single response record for the analysis calls); the returned
trace records which network requests the run performed.
-/

/-! ## JavaScript-semantics helpers -/

/-- Whitespace characters stripped by `String.prototype.trim` (the subset
relevant to this code base: space, newline, tab, carriage return). -/
def isWsChar (c : Char) : Bool :=
  c = ' ' || c = '\n' || c = '\t' || c = '\r'

/-- JS `s.trim()`, modelled on the character list of the string. -/
def jsTrim (s : String) : String :=
  ⟨((s.data.dropWhile isWsChar).reverse.dropWhile isWsChar).reverse⟩

/-- JS `a || b` for strings: the empty string is falsy. -/
def jsOr (a b : String) : String :=
  if a.data.isEmpty then b else a

/-- JS `a || b` where `a` may be `null`/`undefined` (modelled as `none`). -/
def jsOrStr (a : Option String) (b : String) : String :=
  match a with
  | some s => jsOr s b
  | none => b

/-- JS truthiness of an optional string (`undefined`, `null` and `""` are
falsy). -/
def jsTruthyOpt (a : Option String) : Bool :=
  match a with
  | some s => !s.data.isEmpty
  | none => false

/-- Does list `t` occur as a contiguous run inside list `s`? -/
def listContains (t : List Char) : List Char → Bool
  | [] => t.isEmpty
  | c :: s => t.isPrefixOf (c :: s) || listContains t s

/-- Does string `s` contain string `t` as a substring? -/
def strContains (s t : String) : Bool :=
  listContains t.data s.data

/-! ## Shared data model -/

/-- One uniform generated-track record (`SunoTask` in `src/types`).
Fields that only one poller variant populates are `Option`s. -/
structure SunoTask where
  id : String
  status : String
  audio_url : String
  image_url : Option String
  title : String
  model_name : Option String
  prompt : String
deriving DecidableEq, Repr

/-- Which throw site of a poller produced a raised error.  The source code
throws plain `Error`s and its `catch` blocks re-filter them by message
substring; each tag below corresponds to exactly one family of throw
statements (timeout after the loop, provider failure status, repeated
transient errors, success status with missing audio output). -/
inductive ErrClass where
  | timeout
  | provider
  | upstream
  | missingOutput
deriving DecidableEq, Repr

/-- Final outcome of one `pollForMusic` run.  `exhausted` marks a model
input that supplies fewer responses than the run would consume; no theorem
below relies on that case. -/
inductive PollOutcome where
  | tasks (ts : List SunoTask)
  | err (k : ErrClass) (msg : String)
  | exhausted
deriving DecidableEq, Repr

/-- Result of one loop iteration: keep polling with an updated loop state,
or terminate with an outcome. -/
inductive StepRes (σ : Type) where
  | cont (st : σ)
  | done (o : PollOutcome)
deriving DecidableEq, Repr

/-! ## `src/services/sunoService.ts` — `pollForMusic` (record-info variant)

This variant keeps no error counter: transport errors and non-200 envelope
codes are logged and the loop simply continues.  Its `catch` re-throws an
error only when the message contains `生成失败`; every other exception —
including the `生成完成但没有返回音频数据` throw for a success status without
track data — is swallowed and polling continues. -/

namespace SunoService

/-- The `status` vocabulary declared by `TaskInfoResponse` in
`sunoService.ts`. -/
inductive Status where
  | PENDING
  | TEXT_SUCCESS
  | FIRST_SUCCESS
  | SUCCESS
  | CREATE_TASK_FAILED
  | GENERATE_AUDIO_FAILED
  | CALLBACK_EXCEPTION
  | SENSITIVE_WORD_ERROR
deriving DecidableEq, Repr

/-- The string carried by each status value. -/
def Status.str : Status → String
  | .PENDING => "PENDING"
  | .TEXT_SUCCESS => "TEXT_SUCCESS"
  | .FIRST_SUCCESS => "FIRST_SUCCESS"
  | .SUCCESS => "SUCCESS"
  | .CREATE_TASK_FAILED => "CREATE_TASK_FAILED"
  | .GENERATE_AUDIO_FAILED => "GENERATE_AUDIO_FAILED"
  | .CALLBACK_EXCEPTION => "CALLBACK_EXCEPTION"
  | .SENSITIVE_WORD_ERROR => "SENSITIVE_WORD_ERROR"

/-- Is this a failure-class status (the four cases of the `switch` that
throw `生成失败: ...`)? -/
def Status.isFailure : Status → Bool
  | .CREATE_TASK_FAILED => true
  | .GENERATE_AUDIO_FAILED => true
  | .CALLBACK_EXCEPTION => true
  | .SENSITIVE_WORD_ERROR => true
  | _ => false

/-- One provider track entry (`TrackData`); the fields `pollForMusic`
copies into a `SunoTask`, plus `streamAudioUrl`/`tags`/`createTime`/
`duration` which it never reads. -/
structure TrackData where
  id : String
  audioUrl : String
  streamAudioUrl : String
  imageUrl : String
  prompt : String
  modelName : String
  title : String
  tags : String
  createTime : String
  duration : Nat
deriving DecidableEq, Repr

/-- The `data` field of a well-formed 200/200 status response.
`sunoData` is `taskData.response?.sunoData`: `none` covers both an absent
`response` object and an absent `sunoData` array. -/
structure TaskData where
  taskId : String
  status : Status
  sunoData : Option (List TrackData)
  errorCode : Option Int
  errorMessage : Option String
deriving DecidableEq, Repr

/-- What one status query can observe: a non-2xx HTTP response, a 200
response whose envelope `code ≠ 200`, a thrown exception (network failure,
malformed JSON — swallowed by the loop's `catch`), or a well-formed
envelope. -/
inductive Response where
  | httpError (status : Nat)
  | apiError (code : Nat) (msg : String)
  | thrown
  | ok (d : TaskData)
deriving DecidableEq, Repr

/-- Conversion of one provider track to the returned record
(`sunoData.map(track => ({...}))`). -/
def toSunoTask (t : TrackData) : SunoTask :=
  { id := t.id
    status := "SUCCESS"
    audio_url := t.audioUrl
    image_url := some t.imageUrl
    title := t.title
    model_name := some t.modelName
    prompt := t.prompt }

/-- One iteration of the polling loop (lines 103–201 of
`sunoService.ts`), including the effect of the surrounding `try`/`catch`:
the `catch` re-throws only messages containing `生成失败`, so the
missing-output throw `生成完成但没有返回音频数据` is swallowed and the loop
continues. -/
def step (r : Response) : StepRes Unit :=
  match r with
  | .httpError _ => .cont ()
  | .apiError _ _ => .cont ()
  | .thrown => .cont ()
  | .ok d =>
    if d.status.isFailure then
      .done (.err .provider ("生成失败: " ++ jsOrStr d.errorMessage d.status.str))
    else if d.status = .SUCCESS then
      match d.sunoData with
      | some (t :: ts) => .done (.tasks ((t :: ts).map toSunoTask))
      | _ => .cont ()
    else
      .cont ()

/-- Maximum number of poll attempts (`MAX_ATTEMPTS = 50`). -/
def MAX_ATTEMPTS : Nat := 50

/-- The timeout message thrown after the loop (line 204). -/
def timeoutMsg : String := "生成超时，请稍后重试"

/-- The polling loop over the remaining attempt budget and the stream of
responses; the returned `Nat` counts status queries performed. -/
def pollAux : Nat → List Response → PollOutcome × Nat
  | 0, _ => (.err .timeout timeoutMsg, 0)
  | _ + 1, [] => (.exhausted, 0)
  | fuel + 1, r :: rs =>
    match step r with
    | .cont _ =>
      let p := pollAux fuel rs
      (p.1, p.2 + 1)
    | .done o => (o, 1)

/-- `pollForMusic` as a function of the responses its status queries
observe. -/
def pollForMusic (rs : List Response) : PollOutcome × Nat :=
  pollAux MAX_ATTEMPTS rs

end SunoService

/-! ## `src/unnamed/part_005` — `pollForMusic` (wav record-info variant)

This variant tracks `consecutiveErrors` (fatal at 5) and
`lastKnownStatus`, and all of its terminal throws are re-thrown by its
`catch` (their messages match the three whitelisted families). -/

namespace SunoWav

/-- The `successFlag` vocabulary declared by `WavRecordInfoResponse`. -/
inductive Status where
  | PENDING
  | SUCCESS
  | CREATE_TASK_FAILED
  | GENERATE_WAV_FAILED
  | CALLBACK_EXCEPTION
deriving DecidableEq, Repr

/-- The string of each status value; the source applies
`(data.successFlag || 'UNKNOWN').toUpperCase()`, which is the identity on
these (non-empty, already-uppercase) literals. -/
def Status.str : Status → String
  | .PENDING => "PENDING"
  | .SUCCESS => "SUCCESS"
  | .CREATE_TASK_FAILED => "CREATE_TASK_FAILED"
  | .GENERATE_WAV_FAILED => "GENERATE_WAV_FAILED"
  | .CALLBACK_EXCEPTION => "CALLBACK_EXCEPTION"

/-- Is this one of the three failure statuses of line 157? -/
def Status.isFailure : Status → Bool
  | .CREATE_TASK_FAILED => true
  | .GENERATE_WAV_FAILED => true
  | .CALLBACK_EXCEPTION => true
  | _ => false

/-- The `data` field of a well-formed response.  `audioWavUrl` is
`data.response?.audioWavUrl`: `none` covers an absent `response` object or
an absent field. -/
structure WavData where
  taskId : String
  audioWavUrl : Option String
  successFlag : Status
  errorCode : Option Int
  errorMessage : Option String
deriving DecidableEq, Repr

/-- What one status query can observe.  `okNull` is a 200/200 envelope
whose `data` is null (`if (!data) ... continue`).  `thrown` is an
exception from `fetch`/`json()` — swallowed by the `catch` without
touching `consecutiveErrors`. -/
inductive Response where
  | httpError (status : Nat) (body : String)
  | apiError (code : Nat) (msg : String)
  | okNull
  | thrown
  | ok (d : WavData)
deriving DecidableEq, Repr

/-- Loop state: the two mutable locals of `pollForMusic`. -/
structure State where
  consecutiveErrors : Nat
  lastKnownStatus : String
deriving DecidableEq, Repr

/-- Initial loop state (`consecutiveErrors = 0`,
`lastKnownStatus = "Initializing"`). -/
def initState : State := ⟨0, "Initializing"⟩

/-- Message of the fatal throw after 5 consecutive HTTP errors. -/
def repeatedHttpMsg (status : Nat) (body : String) : String :=
  "Repeated API errors (" ++ toString status ++ "): " ++ body

/-- Message of the fatal throw after 5 consecutive envelope error codes. -/
def repeatedCodeMsg (code : Nat) (msg : String) : String :=
  "Repeated API error code " ++ toString code ++ ": " ++ msg

/-- Message of the provider-failure throw (line 158). -/
def taskFailedMsg (errorMessage : Option String) : String :=
  "Suno API task failed: " ++ jsOrStr errorMessage "Unknown error"

/-- Message of the missing-output throw (line 153). -/
def missingOutputMsg : String :=
  "Generation marked as complete, but audio URL was missing from the response."

/-- The message thrown when the attempt budget is exhausted (line 176). -/
def timeoutMsg (lastKnownStatus : String) : String :=
  "Timeout waiting for music generation. Last known status: " ++ lastKnownStatus ++ "."

/-- The ambient `prompt` identifier referenced on line 150; it is not a
parameter of `pollForMusic` (in a browser it resolves to the global
`prompt` binding), modelled as an unspecified constant string. -/
def promptGlobal : String := "prompt"

/-- One iteration of the polling loop (lines 97–173), including the
`catch`: all three fatal throw families are re-thrown, everything else is
swallowed. -/
def step (st : State) (r : Response) : StepRes State :=
  match r with
  | .httpError status body =>
    if st.consecutiveErrors + 1 ≥ 5 then
      .done (.err .upstream (repeatedHttpMsg status body))
    else
      .cont ⟨st.consecutiveErrors + 1, st.lastKnownStatus⟩
  | .apiError code msg =>
    if st.consecutiveErrors + 1 ≥ 5 then
      .done (.err .upstream (repeatedCodeMsg code msg))
    else
      .cont ⟨st.consecutiveErrors + 1, st.lastKnownStatus⟩
  | .okNull => .cont ⟨0, st.lastKnownStatus⟩
  | .thrown => .cont st
  | .ok d =>
    if d.successFlag = .SUCCESS then
      match d.audioWavUrl with
      | some u =>
        if u.data.isEmpty then
          .done (.err .missingOutput missingOutputMsg)
        else
          .done (.tasks [{ id := d.taskId
                           status := "SUCCESS"
                           audio_url := u
                           image_url := none
                           title := "Generated Track"
                           model_name := none
                           prompt := promptGlobal }])
      | none => .done (.err .missingOutput missingOutputMsg)
    else if d.successFlag.isFailure then
      .done (.err .provider (taskFailedMsg d.errorMessage))
    else
      .cont ⟨0, d.successFlag.str⟩

/-- Maximum number of poll attempts (`MAX_ATTEMPTS = 60`). -/
def MAX_ATTEMPTS : Nat := 60

/-- The polling loop; the returned `Nat` counts status queries
performed. -/
def pollAux : State → Nat → List Response → PollOutcome × Nat
  | st, 0, _ => (.err .timeout (timeoutMsg st.lastKnownStatus), 0)
  | _, _ + 1, [] => (.exhausted, 0)
  | st, fuel + 1, r :: rs =>
    match step st r with
    | .cont st' =>
      let p := pollAux st' fuel rs
      (p.1, p.2 + 1)
    | .done o => (o, 1)

/-- `pollForMusic` as a function of the responses its status queries
observe. -/
def pollForMusic (rs : List Response) : PollOutcome × Nat :=
  pollAux initState MAX_ATTEMPTS rs

/-- The `lastKnownStatus` the loop holds when its budget runs out,
mirrored as a pure function of the run (used to state the timeout
property). -/
def lastStatusRun : State → Nat → List Response → String
  | st, 0, _ => st.lastKnownStatus
  | st, _ + 1, [] => st.lastKnownStatus
  | st, fuel + 1, r :: rs =>
    match step st r with
    | .cont st' => lastStatusRun st' fuel rs
    | .done _ => st.lastKnownStatus

end SunoWav

/-! ## A model of `JSON.parse` on flat string-valued objects

The analysis responses the claims are about are JSON objects whose values
are plain strings.  `parseStringObject` is a faithful model of
`JSON.parse` restricted to that fragment: optional JSON whitespace, an
object of `"key": "value"` members (no escape sequences, no nested
values), and — like `JSON.parse` — it rejects any input with leading or
trailing non-whitespace text. -/

/-- Drop leading JSON whitespace. -/
def skipWs : List Char → List Char
  | [] => []
  | c :: l => if isWsChar c then skipWs l else c :: l

/-- Read the remainder of a quoted string (the opening quote already
consumed); returns the content and the rest.  Escape sequences are outside
the modelled fragment. -/
def strLitAux : List Char → List Char → Option (List Char × List Char)
  | _, [] => none
  | acc, c :: r =>
    if c = '"' then some (acc.reverse, r)
    else if c = '\\' then none
    else strLitAux (c :: acc) r

/-- Parse `"k" : "v"` members separated by `,` up to and including the
closing `}`.  The fuel bounds the member count. -/
def parseMembersAux : Nat → List Char → Option (List (String × String) × List Char)
  | 0, _ => none
  | fuel + 1, l =>
    match skipWs l with
    | [] => none
    | c :: r =>
      if c = '"' then
        match strLitAux [] r with
        | none => none
        | some (k, r1) =>
          match skipWs r1 with
          | [] => none
          | c2 :: r3 =>
            if c2 = ':' then
              match skipWs r3 with
              | [] => none
              | c4 :: r5 =>
                if c4 = '"' then
                  match strLitAux [] r5 with
                  | none => none
                  | some (v, r6) =>
                    match skipWs r6 with
                    | [] => none
                    | c7 :: r8 =>
                      if c7 = ',' then
                        match parseMembersAux fuel r8 with
                        | some (ms, rest) => some ((⟨k⟩, ⟨v⟩) :: ms, rest)
                        | none => none
                      else if c7 = '}' then some ([(⟨k⟩, ⟨v⟩)], r8)
                      else none
                else none
            else none
      else none

/-- `JSON.parse` on the flat string-object fragment: `none` models a
thrown `SyntaxError`. -/
def parseStringObject (s : String) : Option (List (String × String)) :=
  match skipWs s.data with
  | [] => none
  | c :: r =>
    if c = '{' then
      match skipWs r with
      | [] => none
      | c1 :: r2 =>
        if c1 = '}' then
          if skipWs r2 = [] then some [] else none
        else
          match parseMembersAux (r.length + 1) (c1 :: r2) with
          | some (ms, rest) => if skipWs rest = [] then some ms else none
          | none => none
    else none

/-- JS property access on a parsed object: the value of the first member
with the given key, `none` for `undefined`. -/
def lookupField (o : List (String × String)) (k : String) : Option String :=
  (o.find? (fun m => m.1 = k)).map (fun m => m.2)

/-! ## Request parts shared by the Gemini variants -/

/-- One entry of the `parts` array of the assembled analysis request:
inline media (base64 payload with its MIME type) or text. -/
inductive ReqPart where
  | inlineData (mimeType : String) (data : String)
  | text (s : String)
deriving DecidableEq, Repr

/-- Number of text parts in a parts array. -/
def countTextParts (ps : List ReqPart) : Nat :=
  (ps.filter (fun p => match p with | .text _ => true | _ => false)).length

/-- Number of inline-media parts in a parts array. -/
def countMediaParts (ps : List ReqPart) : Nat :=
  (ps.filter (fun p => match p with | .inlineData _ _ => true | _ => false)).length

/-- Error taxonomy of the analysis clients, tagged by throw site. -/
inductive GemErr where
  | validationError (msg : String)
  | configError (msg : String)
  | upstreamError (msg : String)
  | noTextError (msg : String)
  | parseError (msg : String)
deriving DecidableEq, Repr

/-! ## `src/services/geminiService.ts` — browser-direct analysis client -/

namespace GeminiService

/-- The video `File` as this function consumes it: its MIME `type` and the
base64 of its bytes (`fileToBase64` abstracted to its result). -/
structure GFile where
  type : String
  base64 : String
deriving DecidableEq, Repr

/-- The response of the single `fetch` to the Gemini endpoint.  `text`
abstracts `data?.candidates?.[0]?.content?.parts?.[0]?.text`: `none` when
the path is absent or not a string. -/
structure NetResponse where
  ok : Bool
  status : Nat
  errText : String
  statusText : String
  text : Option String
deriving DecidableEq, Repr

/-- The fixed instruction text of the template literal (lines 76–89),
up to and including the blank line before the script segment. -/
def promptHeader : String :=
  "You are a professional film score composer.\nYou will receive a video (and optionally its script / description).\nYour goal is to create a single, cohesive music generation prompt that acts as the soundtrack for the entire video.\n\nOutput JSON with the following fields:\n1. summary: A brief 1-sentence summary of the video's content.\n2. mood: 2-3 words describing the emotional tone (e.g., \"Melancholic, Hopeful\").\n3. title: A creative title for the soundtrack.\n4. music_prompt: A detailed description for an AI music generator (Suno).\n   - Focus on instruments, tempo, genre, and atmosphere.\n   - Do NOT include lyrics.\n   - Keep it under 450 characters.\n\n"

/-- The placeholder sentence used when the script segment is empty. -/
def noScriptLine : String :=
  "No script was provided. Infer everything from the video only."

/-- The introduction prefixed to a non-empty script segment. -/
def scriptIntro : String :=
  "Here is the script or description of the video:\n\n"

/-- The full text part (`textPrompt`, lines 76–94): template literal
assembled from the header and the script segment (or the placeholder),
then `.trim()`ed. -/
def textPrompt (scriptSegment : String) : String :=
  jsTrim ("\n" ++ promptHeader ++
    (if scriptSegment.data.isEmpty then noScriptLine
     else scriptIntro ++ scriptSegment) ++ "\n  ")

/-- The `parts` array assembled on lines 57–96: an optional inline video
part followed by the single combined text part. -/
def buildParts (scriptText : String) (videoFile : Option GFile) : List ReqPart :=
  (match videoFile with
   | some f => [ReqPart.inlineData (jsOr f.type "video/mp4") f.base64]
   | none => []) ++ [ReqPart.text (textPrompt (jsTrim scriptText))]

/-- `analyzeScriptAndGeneratePrompts` as a function of its inputs, the
configured API key, and the network response to its single POST (supplied
as `resp`, consulted only if the POST happens).  The first component lists
the parts arrays of the requests actually sent. -/
def analyzeScriptAndGeneratePrompts (scriptText : String) (videoFile : Option GFile)
    (apiKey : Option String) (resp : NetResponse) :
    List (List ReqPart) × Except GemErr (List (String × String)) :=
  if (jsTrim scriptText).data.isEmpty && videoFile.isNone then
    ([], .error (.validationError "请至少提供视频或剧本/描述之一。"))
  else
    match apiKey with
    | none => ([], .error (.configError "GEMINI_API_KEY 未配置，请在 Vercel 环境变量中设置。"))
    | some _ =>
      let parts := buildParts scriptText videoFile
      ([parts],
        if !resp.ok then
          .error (.upstreamError ("Gemini API Error " ++ toString resp.status ++ ": " ++
            jsOr resp.errText resp.statusText))
        else
          match resp.text with
          | none => .error (.noTextError "Gemini 返回的结果中没有文本内容。")
          | some t =>
            match parseStringObject t with
            | some o => .ok o
            | none => .error (.parseError "Gemini 返回的 JSON 格式不合法，解析失败。"))

end GeminiService

/-! ## `src/unnamed/part_004` — client calling `/api/gemini-analyze` -/

namespace GeminiProxyClient

/-- The response of the POST to the app's own API route; `body` is the
JSON object the route answered with (already parsed, as `res.json()`
returns it). -/
structure NetResponse where
  ok : Bool
  status : Nat
  errText : String
  statusText : String
  body : List (String × String)
deriving DecidableEq, Repr

/-- `analyzeScriptAndGeneratePrompts` of `part_004`: validation, one POST,
and the parsed body returned as-is.  The first component counts network
calls performed. -/
def analyzeScriptAndGeneratePrompts (scriptText : String) (videoUrl : Option String)
    (resp : NetResponse) : Nat × Except GemErr (List (String × String)) :=
  if (jsTrim scriptText).data.isEmpty && !jsTruthyOpt videoUrl then
    (0, .error (.validationError "请至少提供视频或剧本/描述之一。"))
  else
    (1,
      if !resp.ok then
        .error (.upstreamError ("Gemini API Error " ++ toString resp.status ++ ": " ++
          jsOr resp.errText resp.statusText))
      else .ok resp.body)

end GeminiProxyClient

/-! ## `src/unnamed/part_001` — the `api/gemini-analyze` server handler -/

namespace GeminiAnalyzeApi

/-- JS `indexOf` of a character over the characters of a string. -/
def firstIdx (c : Char) : List Char → Option Nat
  | [] => none
  | a :: l => if a = c then some 0 else (firstIdx c l).map (· + 1)

/-- JS `lastIndexOf` of a character. -/
def lastIdx (c : Char) : List Char → Option Nat
  | [] => none
  | a :: l =>
    match lastIdx c l with
    | some k => some (k + 1)
    | none => if a = c then some 0 else none

/-- Lines 140–145: slice from the first `{` to the last `}` when both
exist and the last `}` is after the first `{`; otherwise the whole
text. -/
def jsonSlice (t : String) : String :=
  match firstIdx '{' t.data, lastIdx '}' t.data with
  | some i, some j =>
    if i < j then ⟨(t.data.take (j + 1)).drop i⟩ else t
  | _, _ => t

/-- The handler's HTTP reply: an error status with its `error` message, or
200 with the parsed object. -/
inductive HOut where
  | err (status : Nat) (msg : String)
  | okJson (o : List (String × String))
deriving DecidableEq, Repr

/-- A network request the handler performs. -/
inductive HReq where
  | getVideo (url : String)
  | postGemini (parts : List ReqPart)
deriving DecidableEq, Repr

/-- The response of the video download from blob storage; `base64` is
`bufferToBase64` of the downloaded bytes, abstracted to its result. -/
structure VideoRes where
  ok : Bool
  status : Nat
  body : String
  base64 : String
deriving DecidableEq, Repr

/-- The response of the upstream Gemini call.  `text` abstracts lines
125–131: the extracted candidate text when the body parses as the
envelope, the raw body when it does not parse, `none` when the extraction
yields nothing string-valued. -/
structure UpRes where
  ok : Bool
  status : Nat
  text : Option String
deriving DecidableEq, Repr

/-- Lines 139–157: brace-slice the model text, parse it, and return the
parsed object as-is (500 on parse failure). -/
def processText (text : String) : HOut :=
  match parseStringObject (jsonSlice text) with
  | some o => .okJson o
  | none => .err 500 "Gemini 返回的 JSON 格式不合法，解析失败。"

/-- Lines 114–157: upstream status check, text extraction, then
`processText`. -/
def processUpstream (ures : UpRes) : HOut :=
  if !ures.ok then .err ures.status "Gemini upstream error"
  else
    match ures.text with
    | none => .err 500 "Gemini 返回的结果中没有文本内容。"
    | some t => processText t

/-- The text part of the handler's prompt (lines 74–92; wording differs
slightly from `geminiService.ts`). -/
def promptHeader : String :=
  "You are a professional film score composer.\nYou will receive a video (and optionally its script / description).\nYour goal is to create a single, cohesive music generation prompt that acts as the soundtrack for the entire video.\n\nReturn a JSON object with the following fields:\n1. summary: A brief 1-sentence summary of the video's content.\n2. mood: 2-3 words describing the emotional tone (e.g., \"Melancholic, Hopeful\").\n3. title: A creative title for the soundtrack.\n4. music_prompt: A detailed description for an AI music generator (Suno).\n   - Focus on instruments, tempo, genre, and atmosphere.\n   - Do NOT include lyrics.\n   - Keep it under 450 characters.\n\n"

/-- The handler's combined text part. -/
def textPrompt (scriptSegment : String) : String :=
  jsTrim ("\n" ++ promptHeader ++
    (if scriptSegment.data.isEmpty then GeminiService.noScriptLine
     else GeminiService.scriptIntro ++ scriptSegment) ++ "\n    ")

/-- The POST handler as a function of the request body fields, the
configured key, and the responses to the network calls it may perform
(each consulted only if the call happens).  The first component lists the
performed requests in order. -/
def handler (scriptText videoUrl : Option String) (apiKey : Option String)
    (vres : VideoRes) (ures : UpRes) : List HReq × HOut :=
  match apiKey with
  | none => ([], .err 500 "GEMINI_API_KEY 未配置")
  | some _ =>
    if (match scriptText with
        | some s => (jsTrim s).data.isEmpty
        | none => true) && !jsTruthyOpt videoUrl then
      ([], .err 400 "请至少提供视频或剧本/描述之一。")
    else
      let textPart := ReqPart.text (textPrompt (jsTrim (scriptText.getD "")))
      match videoUrl with
      | some u =>
        if u.data.isEmpty then
          ([.postGemini [textPart]], processUpstream ures)
        else if !vres.ok then
          ([.getVideo u], .err 502 "下载视频失败（Blob URL 不可访问或已过期）。")
        else
          ([.getVideo u,
            .postGemini [ReqPart.inlineData "video/mp4" vres.base64, textPart]],
           processUpstream ures)
      | none => ([.postGemini [textPart]], processUpstream ures)

end GeminiAnalyzeApi

/-! ## Derived predicates and concrete example inputs used by the
theorems below -/

namespace SunoService

/-- A transient status-query failure in the sense of the spec: a non-2xx
HTTP response or a well-formed envelope with `code ≠ 200`. -/
def isTransient : Response → Bool
  | .httpError _ => true
  | .apiError _ _ => true
  | _ => false

/-- Does this response leave the loop polling (neither a return nor an
escaping throw)? -/
def isCont (r : Response) : Bool :=
  match step r with
  | .cont _ => true
  | .done _ => false

/-- A well-formed `PENDING` status response. -/
def pendingData : TaskData := ⟨"task", .PENDING, none, none, none⟩

/-- A `SUCCESS` status response whose `sunoData` array is empty. -/
def successNoData : TaskData := ⟨"task", .SUCCESS, some [], none, none⟩

/-- A provider track whose `audioUrl` is the empty string. -/
def emptyUrlTrack : TrackData := ⟨"id1", "", "", "img", "p", "m", "T", "", "", 0⟩

/-- A `SUCCESS` status response carrying one track with an empty
`audioUrl`. -/
def successEmptyUrlData : TaskData := ⟨"task", .SUCCESS, some [emptyUrlTrack], none, none⟩

/-- A provider track with a non-empty `audioUrl`. -/
def goodTrack : TrackData := ⟨"id1", "https://x/a.wav", "s", "img", "p", "m", "T", "", "", 0⟩

/-- A `SUCCESS` status response carrying one well-formed track. -/
def successGoodData : TaskData := ⟨"task", .SUCCESS, some [goodTrack], none, none⟩

/-- A `CREATE_TASK_FAILED` response with `errorMessage` "quota
exceeded". -/
def quotaFailData : TaskData := ⟨"task", .CREATE_TASK_FAILED, none, none, some "quota exceeded"⟩

end SunoService

namespace SunoWav

/-- A transient status-query failure: non-2xx HTTP or envelope
`code ≠ 200` (the two cases that increment `consecutiveErrors`). -/
def isTransient : Response → Bool
  | .httpError _ _ => true
  | .apiError _ _ => true
  | _ => false

/-- The message of the fatal throw raised when this transient response is
the fifth consecutive one. -/
def transientFatalMsg : Response → String
  | .httpError status body => repeatedHttpMsg status body
  | .apiError code msg => repeatedCodeMsg code msg
  | _ => ""

/-- The error body carried by a transient response. -/
def transientBody : Response → String
  | .httpError _ body => body
  | .apiError _ msg => msg
  | _ => ""

/-- A well-formed response whose `successFlag` is `PENDING`. -/
def isPendingOk : Response → Bool
  | .ok d => d.successFlag = .PENDING
  | _ => false

/-- A well-formed `PENDING` response. -/
def pendingData : WavData := ⟨"task", none, .PENDING, none, none⟩

/-- A `SUCCESS` response with no `audioWavUrl`. -/
def successNoUrlData : WavData := ⟨"task", none, .SUCCESS, none, none⟩

/-- A `SUCCESS` response with a non-empty `audioWavUrl`. -/
def successData : WavData := ⟨"task", some "https://x/a.wav", .SUCCESS, none, none⟩

/-- A `CREATE_TASK_FAILED` response with `errorMessage` "quota
exceeded". -/
def quotaFailData : WavData := ⟨"task", none, .CREATE_TASK_FAILED, none, some "quota exceeded"⟩

/-- The record returned for `successData`. -/
def successTask : SunoTask :=
  ⟨"task", "SUCCESS", "https://x/a.wav", none, "Generated Track", none, promptGlobal⟩

end SunoWav

namespace GeminiService

/-- A 200 response whose extracted candidate text is `t`. -/
def okResp (t : String) : NetResponse := ⟨true, 200, "", "", some t⟩

end GeminiService

/-- The spec's prose-wrapped model response scenario. -/
def wrappedJson : String :=
  "\x7b\"summary\":\"s\",\"mood\":\"m\",\"title\":\"t\",\"music_prompt\":\"p\"\x7d"

/-- The parse of `wrappedJson`. -/
def wrappedObj : List (String × String) :=
  [("summary", "s"), ("mood", "m"), ("title", "t"), ("music_prompt", "p")]

theorem isPrefixOf_append_self (l r : List Char) : l.isPrefixOf (l ++ r) = true := by
  induction l with
  | nil => simp
  | cons a l' ih =>
    show (a == a && l'.isPrefixOf (l' ++ r)) = true
    simp [ih]

theorem listContains_append (t a b : List Char) : listContains t (a ++ t ++ b) = true := by
  induction a with
  | nil =>
    cases t with
    | nil => cases b <;> simp [listContains]
    | cons x xs =>
      simp only [List.nil_append, List.cons_append, listContains]
      have h : (x :: xs).isPrefixOf (x :: (xs ++ b)) = true := isPrefixOf_append_self (x :: xs) b
      simp [h]
  | cons c cs ih =>
    simp only [List.cons_append, listContains, List.append_eq]
    rw [ih]
    simp

theorem strContains_append (a t b : String) : strContains (a ++ t ++ b) t = true := by
  have h : (a ++ t ++ b).data = a.data ++ t.data ++ b.data := rfl
  simp only [strContains, h]
  exact listContains_append t.data a.data b.data

theorem strContains_append_end (a t : String) : strContains (a ++ t) t = true := by
  have h : (a ++ t).data = a.data ++ t.data ++ [] := by simp
  simp only [strContains, h]
  exact listContains_append t.data a.data []

theorem SunoService.pollAuxA_cons (fuel : Nat) (r : Response) (rs : List Response) :
  pollAux (fuel + 1) (r :: rs) = match step r with
    | .cont _ => ((pollAux fuel rs).1, (pollAux fuel rs).2 + 1)
    | .done o => (o, 1) := rfl

theorem SunoService.stepA_done_ne_timeout (r : Response) (o : PollOutcome)
    (h : step r = .done o) (m : String) : o ≠ .err .timeout m := by
  cases r with
  | httpError s => simp [step] at h
  | apiError c msg => simp [step] at h
  | thrown => simp [step] at h
  | ok d =>
    simp only [step] at h
    split at h
    · cases h <;> simp
    · split at h
      · split at h <;> cases h <;> simp
      · cases h <;> simp

theorem SunoService.pollAuxA_timeout (fuel : Nat) :
    ∀ (rs : List Response) (m : String),
      (pollAux fuel rs).1 = .err .timeout m → m = timeoutMsg := by
  induction fuel with
  | zero =>
    intro rs m h
    simp [pollAux] at h
    exact h.symm
  | succ f ih =>
    intro rs m h
    cases rs with
    | nil => simp [pollAux] at h
    | cons r rest =>
      rw [pollAuxA_cons] at h
      cases hs : step r with
      | cont st => rw [hs] at h; exact ih rest m h
      | done o =>
        rw [hs] at h
        exact absurd h (stepA_done_ne_timeout r o hs m)

theorem SunoWav.pollAuxB_cons (st : State) (fuel : Nat) (r : Response) (rs : List Response) :
  pollAux st (fuel + 1) (r :: rs) = match step st r with
    | .cont st' => ((pollAux st' fuel rs).1, (pollAux st' fuel rs).2 + 1)
    | .done o => (o, 1) := rfl

theorem SunoWav.stepB_done_ne_timeout (st : State) (r : Response) (o : PollOutcome)
    (h : step st r = .done o) (m : String) : o ≠ .err .timeout m := by
  cases r with
  | httpError s body =>
    simp only [step] at h
    split at h
    · cases h <;> simp
    · cases h
  | apiError c msg =>
    simp only [step] at h
    split at h
    · cases h <;> simp
    · cases h
  | okNull => simp [step] at h
  | thrown => simp [step] at h
  | ok d =>
    simp only [step] at h
    split at h
    · split at h
      · split at h <;> cases h <;> simp
      · cases h <;> simp
    · split at h
      · cases h <;> simp
      · cases h

theorem SunoWav.pollAuxB_timeout (fuel : Nat) :
    ∀ (st : State) (rs : List Response) (m : String),
      (pollAux st fuel rs).1 = .err .timeout m → m = timeoutMsg (lastStatusRun st fuel rs) := by
  induction fuel with
  | zero =>
    intro st rs m h
    simp [pollAux] at h
    simp [lastStatusRun]
    exact h.symm
  | succ f ih =>
    intro st rs m h
    cases rs with
    | nil => simp [pollAux] at h
    | cons r rest =>
      rw [pollAuxB_cons] at h
      cases hs : step st r with
      | cont st' =>
        rw [hs] at h
        have := ih st' rest m h
        simp only [lastStatusRun, hs]
        exact this
      | done o =>
        rw [hs] at h
        exact absurd h (stepB_done_ne_timeout st r o hs m)

theorem SunoService.stepA_tasks (r : Response) (ts : List SunoTask)
    (h : step r = .done (.tasks ts)) :
    ∃ d t l, r = .ok d ∧ d.sunoData = some (t :: l) ∧ ts = (t :: l).map toSunoTask := by
  cases r with
  | httpError s => simp [step] at h
  | apiError c msg => simp [step] at h
  | thrown => simp [step] at h
  | ok d =>
    simp only [step] at h
    split at h
    · cases h
    · split at h
      · split at h
        · rename_i t l heq
          cases h
          exact ⟨d, t, l, rfl, heq, rfl⟩
        · cases h
      · cases h

theorem SunoService.pollAuxA_tasks (fuel : Nat) :
    ∀ (rs : List Response) (ts : List SunoTask) (n : Nat),
      pollAux fuel rs = (.tasks ts, n) → ∃ r ∈ rs, step r = .done (.tasks ts) := by
  induction fuel with
  | zero => intro rs ts n h; simp [pollAux] at h
  | succ f ih =>
    intro rs ts n h
    cases rs with
    | nil => simp [pollAux] at h
    | cons r rest =>
      rw [pollAuxA_cons] at h
      cases hs : step r with
      | cont st =>
        rw [hs] at h
        have h1 : pollAux f rest = (.tasks ts, (pollAux f rest).2) := by
          have := congrArg Prod.fst h
          simp at this
          exact Prod.ext this rfl
        obtain ⟨r', hr', hstep⟩ := ih rest ts (pollAux f rest).2 h1
        exact ⟨r', List.mem_cons_of_mem r hr', hstep⟩
      | done o =>
        rw [hs] at h
        have : o = .tasks ts := congrArg Prod.fst h
        exact ⟨r, List.mem_cons_self r rest, this ▸ hs⟩

theorem SunoWav.stepB_tasks (st : State) (r : Response) (ts : List SunoTask)
    (h : step st r = .done (.tasks ts)) :
    ∃ d u, r = .ok d ∧ d.audioWavUrl = some u ∧ u.data.isEmpty = false ∧
      ts = [{ id := d.taskId, status := "SUCCESS", audio_url := u, image_url := none,
              title := "Generated Track", model_name := none, prompt := promptGlobal }] := by
  cases r with
  | httpError s body =>
    simp only [step] at h
    split at h <;> cases h
  | apiError c msg =>
    simp only [step] at h
    split at h <;> cases h
  | okNull => simp [step] at h
  | thrown => simp [step] at h
  | ok d =>
    simp only [step] at h
    split at h
    · split at h
      · rename_i u heq
        split at h
        · cases h
        · rename_i hne
          cases h
          exact ⟨d, u, rfl, heq, by simpa using hne, rfl⟩
      · cases h
    · split at h
      · cases h
      · cases h

theorem SunoWav.pollAuxB_tasks (fuel : Nat) :
    ∀ (st : State) (rs : List Response) (ts : List SunoTask) (n : Nat),
      pollAux st fuel rs = (.tasks ts, n) →
      ∃ st' r, r ∈ rs ∧ step st' r = .done (.tasks ts) := by
  induction fuel with
  | zero => intro st rs ts n h; simp [pollAux] at h
  | succ f ih =>
    intro st rs ts n h
    cases rs with
    | nil => simp [pollAux] at h
    | cons r rest =>
      rw [pollAuxB_cons] at h
      cases hs : step st r with
      | cont st1 =>
        rw [hs] at h
        have h1 : pollAux st1 f rest = (.tasks ts, (pollAux st1 f rest).2) := by
          have := congrArg Prod.fst h
          simp at this
          exact Prod.ext this rfl
        obtain ⟨st', r', hr', hstep⟩ := ih st1 rest ts (pollAux st1 f rest).2 h1
        exact ⟨st', r', List.mem_cons_of_mem r hr', hstep⟩
      | done o =>
        rw [hs] at h
        have : o = .tasks ts := congrArg Prod.fst h
        exact ⟨st, r, List.mem_cons_self r rest, this ▸ hs⟩

theorem SunoService.isCont_step (r : Response) (h : isCont r = true) : step r = .cont () := by
  unfold isCont at h
  cases hs : step r with
  | cont st => cases st; rfl
  | done o => rw [hs] at h; simp at h

theorem SunoService.stepA_failure (d : TaskData) (h : d.status.isFailure = true) :
    step (.ok d) = .done (.err .provider ("生成失败: " ++ jsOrStr d.errorMessage d.status.str)) := by
  simp [step, h]

theorem SunoService.pollAux_cont_run (pre : List Response) :
    ∀ (fuel : Nat) (rs : List Response), (∀ r ∈ pre, isCont r = true) → pre.length ≤ fuel →
      pollAux fuel (pre ++ rs) =
        ((pollAux (fuel - pre.length) rs).1, (pollAux (fuel - pre.length) rs).2 + pre.length) := by
  induction pre with
  | nil => intro fuel rs _ _; simp
  | cons r pre' ih =>
    intro fuel rs hc hlen
    cases fuel with
    | zero => simp at hlen
    | succ f =>
      have hr : step r = .cont () := isCont_step r (hc r (List.mem_cons_self r pre'))
      rw [List.cons_append, pollAuxA_cons, hr]
      have hlen' : pre'.length ≤ f := Nat.le_of_succ_le_succ (by simpa using hlen)
      dsimp only
      rw [ih f rs (fun x hx => hc x (List.mem_cons_of_mem r hx)) hlen']
      have he : f - pre'.length = f + 1 - (pre'.length + 1) := by omega
      simp only [List.length_cons, he, Nat.add_assoc]

theorem SunoWav.isPendingOk_step (r : Response) (h : isPendingOk r = true) (st : State) :
    step st r = .cont ⟨0, "PENDING"⟩ := by
  cases r with
  | httpError s body => simp [isPendingOk] at h
  | apiError c msg => simp [isPendingOk] at h
  | okNull => simp [isPendingOk] at h
  | thrown => simp [isPendingOk] at h
  | ok d =>
    have hp : d.successFlag = .PENDING := by simpa [isPendingOk] using h
    simp [step, hp, Status.isFailure, Status.str]

theorem SunoWav.stepB_failure (st : State) (d : WavData) (h : d.successFlag.isFailure = true) :
    step st (.ok d) = .done (.err .provider (taskFailedMsg d.errorMessage)) := by
  have hne : ¬ d.successFlag = .SUCCESS := by
    intro he
    rw [he] at h
    simp [Status.isFailure] at h
  simp [step, hne, h]

theorem SunoWav.pollAux_pending_fail (pre : List Response) :
    ∀ (st : State) (fuel : Nat) (d : WavData) (rest : List Response),
      (∀ r ∈ pre, isPendingOk r = true) → pre.length < fuel → d.successFlag.isFailure = true →
      pollAux st fuel (pre ++ .ok d :: rest) =
        (.err .provider (taskFailedMsg d.errorMessage), pre.length + 1) := by
  induction pre with
  | nil =>
    intro st fuel d rest _ hlen hf
    cases fuel with
    | zero => simp at hlen
    | succ f =>
      rw [List.nil_append, pollAuxB_cons, stepB_failure st d hf]
      simp
  | cons r pre' ih =>
    intro st fuel d rest hc hlen hf
    cases fuel with
    | zero => simp at hlen
    | succ f =>
      have hr := isPendingOk_step r (hc r (List.mem_cons_self r pre')) st
      rw [List.cons_append, pollAuxB_cons, hr]
      have hlen' : pre'.length < f := by simpa using Nat.lt_of_succ_lt_succ (by simpa using hlen)
      dsimp only
      rw [ih ⟨0, "PENDING"⟩ f d rest (fun x hx => hc x (List.mem_cons_of_mem r hx)) hlen' hf]
      simp only [List.length_cons]

theorem SunoService.pollAux_allCont_timeout (fuel : Nat) :
    ∀ (rs : List Response), fuel ≤ rs.length → (∀ r ∈ rs, isCont r = true) →
      pollAux fuel rs = (.err .timeout timeoutMsg, fuel) := by
  induction fuel with
  | zero => intro rs _ _; rfl
  | succ f ih =>
    intro rs hlen hc
    cases rs with
    | nil => simp at hlen
    | cons r rest =>
      rw [pollAuxA_cons, isCont_step r (hc r (List.mem_cons_self r rest))]
      dsimp only
      rw [ih rest (by simpa using hlen) (fun x hx => hc x (List.mem_cons_of_mem r hx))]

theorem SunoWav.transient_cases (r : Response) (h : isTransient r = true) :
    (∃ s b, r = .httpError s b) ∨ (∃ c m, r = .apiError c m) := by
  cases r with
  | httpError s b => exact Or.inl ⟨s, b, rfl⟩
  | apiError c m => exact Or.inr ⟨c, m, rfl⟩
  | okNull => simp [isTransient] at h
  | thrown => simp [isTransient] at h
  | ok d => simp [isTransient] at h

/-- C1: evaluation at the failing input.  In `sunoService.ts`, a run whose
status queries all report `SUCCESS` with an empty `sunoData` array does
not raise the fatal "complete but missing output" error: the throw is
swallowed by the loop's own catch filter, all 50 status queries are
performed, and the run ends in the generic timeout error.  The
`part_005` variant behaves as the claim states: it raises the
missing-output error after the first such query and polls no further. -/
theorem c1_divergence_eval :
  SunoService.pollForMusic (List.replicate 50 (.ok SunoService.successNoData))
    = (.err .timeout SunoService.timeoutMsg, 50)
  ∧ SunoWav.pollForMusic [.ok SunoWav.successNoUrlData]
    = (.err .missingOutput SunoWav.missingOutputMsg, 1) := ⟨rfl, rfl⟩

/-- C2 counterexample: in `sunoService.ts`, a run whose status queries all
fail with HTTP 500 performs all 50 queries — far past 5 consecutive
transient failures — and ends in the timeout error, not an
`UpstreamError`. -/
theorem c2_counterexample :
  SunoService.pollForMusic (List.replicate 50 (.httpError 500))
    = (.err .timeout SunoService.timeoutMsg, 50) := rfl

/-- C2 amended: in the `part_005` variant, the fifth consecutive
transiently failing status query raises the fatal `Repeated API` error
carrying that query's error body, and no further queries are performed;
the `sunoService.ts` variant has no consecutive-error threshold and
retries transient failures until its 50-attempt budget is exhausted,
then times out. -/
theorem c2_amended_theorem :
  (∀ (r0 r1 r2 r3 r4 : SunoWav.Response) (rest : List SunoWav.Response),
    SunoWav.isTransient r0 = true → SunoWav.isTransient r1 = true →
    SunoWav.isTransient r2 = true → SunoWav.isTransient r3 = true →
    SunoWav.isTransient r4 = true →
    SunoWav.pollForMusic (r0 :: r1 :: r2 :: r3 :: r4 :: rest)
      = (.err .upstream (SunoWav.transientFatalMsg r4), 5)
    ∧ strContains (SunoWav.transientFatalMsg r4) (SunoWav.transientBody r4) = true)
  ∧ (∀ rs : List SunoService.Response, SunoService.MAX_ATTEMPTS ≤ rs.length →
      (∀ r ∈ rs, SunoService.isTransient r = true) →
      SunoService.pollForMusic rs = (.err .timeout SunoService.timeoutMsg, SunoService.MAX_ATTEMPTS)) := by
  constructor
  · intro r0 r1 r2 r3 r4 rest h0 h1 h2 h3 h4
    rcases SunoWav.transient_cases r0 h0 with ⟨s0, b0, rfl⟩ | ⟨c0, m0, rfl⟩ <;>
    rcases SunoWav.transient_cases r1 h1 with ⟨s1, b1, rfl⟩ | ⟨c1, m1, rfl⟩ <;>
    rcases SunoWav.transient_cases r2 h2 with ⟨s2, b2, rfl⟩ | ⟨c2, m2, rfl⟩ <;>
    rcases SunoWav.transient_cases r3 h3 with ⟨s3, b3, rfl⟩ | ⟨c3, m3, rfl⟩ <;>
    rcases SunoWav.transient_cases r4 h4 with ⟨s4, b4, rfl⟩ | ⟨c4, m4, rfl⟩ <;>
    refine ⟨rfl, ?_⟩ <;>
    simp only [SunoWav.transientFatalMsg, SunoWav.transientBody,
      SunoWav.repeatedHttpMsg, SunoWav.repeatedCodeMsg] <;>
    exact strContains_append_end _ _
  · intro rs hlen hc
    refine SunoService.pollAux_allCont_timeout _ rs hlen (fun r hr => ?_)
    rcases r with s | ⟨c, m⟩ | _ | d
    · rfl
    · rfl
    · rfl
    · exact absurd (hc _ hr) (by simp [SunoService.isTransient])

/-- C2 witness: five consecutive transient failures observed by the
`part_005` poller, and an all-transient run of the `sunoService.ts`
poller. -/
theorem c2_witness :
  (SunoWav.pollForMusic [.httpError 500 "boom", .httpError 500 "boom", .httpError 500 "boom",
      .httpError 500 "boom", .httpError 502 "last body"]
    = (.err .upstream (SunoWav.transientFatalMsg (.httpError 502 "last body")), 5)
  ∧ strContains (SunoWav.transientFatalMsg (.httpError 502 "last body"))
      (SunoWav.transientBody (.httpError 502 "last body")) = true)
  ∧ SunoService.pollForMusic (List.replicate 50 (.apiError 503 "oops"))
      = (.err .timeout SunoService.timeoutMsg, 50) :=
  ⟨c2_amended_theorem.1 _ _ _ _ _ [] rfl rfl rfl rfl rfl,
   c2_amended_theorem.2 (List.replicate 50 (.apiError 503 "oops")) (by decide) (by decide)⟩

/-- C3 counterexample: in `sunoService.ts`, a run that observes only
`PENDING` and never reaches a terminal status times out with the fixed
message `生成超时，请稍后重试`, which does not contain the last observed
status string `PENDING`. -/
theorem c3_counterexample :
  SunoService.pollForMusic (List.replicate 50 (.ok SunoService.pendingData))
    = (.err .timeout SunoService.timeoutMsg, 50)
  ∧ strContains SunoService.timeoutMsg "PENDING" = false := ⟨rfl, rfl⟩

/-- C3 amended: in the `part_005` variant, a run that raises the timeout
error raises it with the message built from the loop's final
`lastKnownStatus` (the status of the most recent well-formed response,
initially "Initializing"), and that message contains the status string;
the `sunoService.ts` variant raises the fixed message
`生成超时，请稍后重试` which carries no status. -/
theorem c3_amended_theorem :
  (∀ (rs : List SunoWav.Response) (m : String),
     (SunoWav.pollForMusic rs).1 = .err .timeout m →
     m = SunoWav.timeoutMsg (SunoWav.lastStatusRun SunoWav.initState SunoWav.MAX_ATTEMPTS rs)
     ∧ strContains m (SunoWav.lastStatusRun SunoWav.initState SunoWav.MAX_ATTEMPTS rs) = true)
  ∧ (∀ (rs : List SunoService.Response) (m : String),
     (SunoService.pollForMusic rs).1 = .err .timeout m → m = SunoService.timeoutMsg) := by
  constructor
  · intro rs m h
    have h' : (SunoWav.pollAux SunoWav.initState SunoWav.MAX_ATTEMPTS rs).1 = .err .timeout m := h
    have he := SunoWav.pollAuxB_timeout SunoWav.MAX_ATTEMPTS SunoWav.initState rs m h'
    refine ⟨he, ?_⟩
    rw [he]
    simp only [SunoWav.timeoutMsg]
    exact strContains_append _ _ _
  · intro rs m h
    exact SunoService.pollAuxA_timeout SunoService.MAX_ATTEMPTS rs m h

/-- C3 witness: a `part_005` run of 60 `PENDING` responses times out with
a message containing "PENDING". -/
theorem c3_witness :
  SunoWav.timeoutMsg "PENDING"
    = SunoWav.timeoutMsg (SunoWav.lastStatusRun SunoWav.initState SunoWav.MAX_ATTEMPTS
        (List.replicate 60 (.ok SunoWav.pendingData)))
  ∧ strContains (SunoWav.timeoutMsg "PENDING")
      (SunoWav.lastStatusRun SunoWav.initState SunoWav.MAX_ATTEMPTS
        (List.replicate 60 (.ok SunoWav.pendingData))) = true :=
  c3_amended_theorem.1 (List.replicate 60 (.ok SunoWav.pendingData)) (SunoWav.timeoutMsg "PENDING") rfl

/-- C4: in both poller variants, a poll iteration that observes a
failure-class terminal status (every failure status in the variant's
declared status vocabulary) raises the provider-failure error immediately,
carrying the provider's `errorMessage` when one is present, and performs
no further status queries. -/
theorem c4_theorem :
  (∀ (pre : List SunoService.Response) (d : SunoService.TaskData) (rest : List SunoService.Response),
     (∀ r ∈ pre, SunoService.isCont r = true) → pre.length < SunoService.MAX_ATTEMPTS →
     d.status.isFailure = true →
     SunoService.pollForMusic (pre ++ .ok d :: rest)
       = (.err .provider ("生成失败: " ++ jsOrStr d.errorMessage d.status.str), pre.length + 1)
     ∧ ∀ em, d.errorMessage = some em → em.data.isEmpty = false →
         strContains ("生成失败: " ++ jsOrStr d.errorMessage d.status.str) em = true)
  ∧ (∀ (pre : List SunoWav.Response) (d : SunoWav.WavData) (rest : List SunoWav.Response),
     (∀ r ∈ pre, SunoWav.isPendingOk r = true) → pre.length < SunoWav.MAX_ATTEMPTS →
     d.successFlag.isFailure = true →
     SunoWav.pollForMusic (pre ++ .ok d :: rest)
       = (.err .provider (SunoWav.taskFailedMsg d.errorMessage), pre.length + 1)
     ∧ ∀ em, d.errorMessage = some em → em.data.isEmpty = false →
         strContains (SunoWav.taskFailedMsg d.errorMessage) em = true) := by
  constructor
  · intro pre d rest hc hlen hf
    constructor
    · show SunoService.pollAux SunoService.MAX_ATTEMPTS (pre ++ .ok d :: rest) = _
      rw [SunoService.pollAux_cont_run pre SunoService.MAX_ATTEMPTS (.ok d :: rest) hc
        (Nat.le_of_lt hlen)]
      have h50 : SunoService.MAX_ATTEMPTS - pre.length
          = (SunoService.MAX_ATTEMPTS - pre.length - 1) + 1 := by
        have : 0 < SunoService.MAX_ATTEMPTS - pre.length := by
          simp only [SunoService.MAX_ATTEMPTS] at hlen ⊢
          omega
        omega
      rw [h50, SunoService.pollAuxA_cons, SunoService.stepA_failure d hf]
      dsimp only
      rw [Nat.add_comm 1 pre.length]
    · intro em hem hne
      rw [hem]
      simp only [jsOrStr, jsOr, hne, Bool.false_eq_true, if_false]
      exact strContains_append_end _ _
  · intro pre d rest hc hlen hf
    constructor
    · exact SunoWav.pollAux_pending_fail pre SunoWav.initState SunoWav.MAX_ATTEMPTS d rest hc hlen hf
    · intro em hem hne
      rw [hem]
      simp only [SunoWav.taskFailedMsg, jsOrStr, jsOr, hne, Bool.false_eq_true, if_false]
      exact strContains_append_end _ _

/-- C4 witness: the spec's scenario — the status sequence
`[PENDING, CREATE_TASK_FAILED (errorMessage "quota exceeded")]` makes both
pollers reject after exactly 2 queries with an error containing
"quota exceeded". -/
theorem c4_witness :
  (SunoService.pollForMusic [.ok SunoService.pendingData, .ok SunoService.quotaFailData]
     = (.err .provider ("生成失败: " ++ jsOrStr SunoService.quotaFailData.errorMessage
         SunoService.quotaFailData.status.str), 2)
   ∧ strContains ("生成失败: " ++ jsOrStr SunoService.quotaFailData.errorMessage
       SunoService.quotaFailData.status.str) "quota exceeded" = true)
  ∧ (SunoWav.pollForMusic [.ok SunoWav.pendingData, .ok SunoWav.quotaFailData]
     = (.err .provider (SunoWav.taskFailedMsg SunoWav.quotaFailData.errorMessage), 2)
   ∧ strContains (SunoWav.taskFailedMsg SunoWav.quotaFailData.errorMessage) "quota exceeded" = true) :=
  ⟨⟨(c4_theorem.1 [.ok SunoService.pendingData] SunoService.quotaFailData [] (by decide)
      (by decide) rfl).1,
    (c4_theorem.1 [.ok SunoService.pendingData] SunoService.quotaFailData [] (by decide)
      (by decide) rfl).2 "quota exceeded" rfl rfl⟩,
   ⟨(c4_theorem.2 [.ok SunoWav.pendingData] SunoWav.quotaFailData [] (by decide)
      (by decide) rfl).1,
    (c4_theorem.2 [.ok SunoWav.pendingData] SunoWav.quotaFailData [] (by decide)
      (by decide) rfl).2 "quota exceeded" rfl rfl⟩⟩

/-- C5 counterexample: `sunoService.ts` checks only that the track list
is non-empty, not each track's `audioUrl`; a `SUCCESS` payload holding one
track with an empty `audioUrl` makes the poller return a record with
`status = "SUCCESS"` and an empty audio URL. -/
theorem c5_counterexample :
  (SunoService.pollForMusic [.ok SunoService.successEmptyUrlData]).1
    = .tasks [SunoService.toSunoTask SunoService.emptyUrlTrack]
  ∧ (SunoService.toSunoTask SunoService.emptyUrlTrack).status = "SUCCESS"
  ∧ (SunoService.toSunoTask SunoService.emptyUrlTrack).audio_url = "" := ⟨rfl, rfl, rfl⟩

/-- C5 amended: every record either poller returns has
`status = "SUCCESS"` (so `FAILURE ⇒ audioUrl absent` holds vacuously and
`audioUrl non-empty ⇒ SUCCESS` trivially).  In `part_005` the returned
record's audio URL is always non-empty; in `sunoService.ts` the audio URL
is copied from the provider track unchecked, so `SUCCESS ⇒ audioUrl
non-empty` holds only under the assumption that every track of the
success payload carries a non-empty `audioUrl`. -/
theorem c5_amended_theorem :
  (∀ (rs : List SunoWav.Response) (ts : List SunoTask) (n : Nat),
     SunoWav.pollForMusic rs = (.tasks ts, n) →
     ∀ t ∈ ts, t.status = "SUCCESS" ∧ t.audio_url.data.isEmpty = false)
  ∧ (∀ (rs : List SunoService.Response) (ts : List SunoTask) (n : Nat),
     SunoService.pollForMusic rs = (.tasks ts, n) →
     (∀ t ∈ ts, t.status = "SUCCESS")
     ∧ ((∀ d l tr, SunoService.Response.ok d ∈ rs → d.sunoData = some l → tr ∈ l →
          tr.audioUrl.data.isEmpty = false) →
        ∀ t ∈ ts, t.audio_url.data.isEmpty = false)) := by
  constructor
  · intro rs ts n h
    obtain ⟨st', r, _, hstep⟩ := SunoWav.pollAuxB_tasks SunoWav.MAX_ATTEMPTS SunoWav.initState rs ts n h
    obtain ⟨d, u, _, _, hu, hts⟩ := SunoWav.stepB_tasks st' r ts hstep
    intro t ht
    rw [hts] at ht
    simp only [List.mem_singleton] at ht
    subst ht
    exact ⟨rfl, hu⟩
  · intro rs ts n h
    obtain ⟨r, hr, hstep⟩ := SunoService.pollAuxA_tasks SunoService.MAX_ATTEMPTS rs ts n h
    obtain ⟨d, t0, l, hrd, hsd, hts⟩ := SunoService.stepA_tasks r ts hstep
    constructor
    · intro t ht
      rw [hts] at ht
      obtain ⟨tr, _, htr⟩ := List.mem_map.mp ht
      rw [← htr]
      rfl
    · intro hurl t ht
      rw [hts] at ht
      obtain ⟨tr, hmem, htr⟩ := List.mem_map.mp ht
      rw [← htr]
      exact hurl d (t0 :: l) tr (hrd ▸ hr) hsd hmem

/-- C5 witness: a successful `part_005` run yields a record with status
"SUCCESS" and a non-empty audio URL; a successful `sunoService.ts` run
over a payload whose tracks all carry non-empty audio URLs does too. -/
theorem c5_witness :
  (SunoWav.successTask.status = "SUCCESS" ∧ SunoWav.successTask.audio_url.data.isEmpty = false)
  ∧ ((SunoService.toSunoTask SunoService.goodTrack).status = "SUCCESS"
     ∧ (SunoService.toSunoTask SunoService.goodTrack).audio_url.data.isEmpty = false) :=
  ⟨c5_amended_theorem.1 [.ok SunoWav.successData] [SunoWav.successTask] 1 rfl
     SunoWav.successTask (by simp),
   ⟨(c5_amended_theorem.2 [.ok SunoService.successGoodData]
       [SunoService.toSunoTask SunoService.goodTrack] 1 rfl).1
      (SunoService.toSunoTask SunoService.goodTrack) (by simp),
    (c5_amended_theorem.2 [.ok SunoService.successGoodData]
       [SunoService.toSunoTask SunoService.goodTrack] 1 rfl).2
      (by
        intro d l tr hd hl htr
        simp only [List.mem_singleton] at hd
        injection hd with hd'
        subst hd'
        simp only [SunoService.successGoodData] at hl
        injection hl with hl'
        subst hl'
        simp only [List.mem_singleton] at htr
        subst htr
        rfl)
      (SunoService.toSunoTask SunoService.goodTrack) (by simp)⟩⟩

/-- C10: whenever either poller returns normally, the returned task list
is non-empty and every element has status "SUCCESS". -/
theorem c10_theorem :
  (∀ (rs : List SunoService.Response) (ts : List SunoTask) (n : Nat),
     SunoService.pollForMusic rs = (.tasks ts, n) →
     ts ≠ [] ∧ ∀ t ∈ ts, t.status = "SUCCESS")
  ∧ (∀ (rs : List SunoWav.Response) (ts : List SunoTask) (n : Nat),
     SunoWav.pollForMusic rs = (.tasks ts, n) →
     ts ≠ [] ∧ ∀ t ∈ ts, t.status = "SUCCESS") := by
  constructor
  · intro rs ts n h
    obtain ⟨r, _, hstep⟩ := SunoService.pollAuxA_tasks SunoService.MAX_ATTEMPTS rs ts n h
    obtain ⟨d, t0, l, _, _, hts⟩ := SunoService.stepA_tasks r ts hstep
    constructor
    · rw [hts]; simp
    · intro t ht
      rw [hts] at ht
      obtain ⟨tr, _, htr⟩ := List.mem_map.mp ht
      rw [← htr]
      rfl
  · intro rs ts n h
    obtain ⟨st', r, _, hstep⟩ := SunoWav.pollAuxB_tasks SunoWav.MAX_ATTEMPTS SunoWav.initState rs ts n h
    obtain ⟨d, u, _, _, _, hts⟩ := SunoWav.stepB_tasks st' r ts hstep
    constructor
    · rw [hts]; simp
    · intro t ht
      rw [hts] at ht
      simp only [List.mem_singleton] at ht
      subst ht
      rfl

/-- C10 witness: concrete successful runs of both pollers. -/
theorem c10_witness :
  (SunoService.toSunoTask SunoService.goodTrack).status = "SUCCESS"
  ∧ SunoWav.successTask.status = "SUCCESS" :=
  ⟨(c10_theorem.1 [.ok SunoService.successGoodData]
     [SunoService.toSunoTask SunoService.goodTrack] 1 rfl).2
     (SunoService.toSunoTask SunoService.goodTrack) (by simp),
   (c10_theorem.2 [.ok SunoWav.successData] [SunoWav.successTask] 1 rfl).2
     SunoWav.successTask (by simp)⟩

theorem GeminiAnalyzeApi.firstIdx_append_of_not_mem (c : Char) (pre rest : List Char)
    (h : c ∉ pre) : firstIdx c (pre ++ c :: rest) = some pre.length := by
  induction pre with
  | nil => simp [firstIdx]
  | cons a pre' ih =>
    have hne : ¬ a = c := fun he => h (he ▸ List.mem_cons_self a pre')
    have h' : c ∉ pre' := fun hm => h (List.mem_cons_of_mem a hm)
    simp [firstIdx, hne, ih h']

theorem GeminiAnalyzeApi.lastIdx_of_not_mem (c : Char) (l : List Char) (h : c ∉ l) :
    lastIdx c l = none := by
  induction l with
  | nil => rfl
  | cons a l' ih =>
    have hne : ¬ a = c := fun he => h (he ▸ List.mem_cons_self a l')
    have h' : c ∉ l' := fun hm => h (List.mem_cons_of_mem a hm)
    simp [lastIdx, ih h', hne]

theorem GeminiAnalyzeApi.lastIdx_append_of_not_mem (c : Char) (l post : List Char)
    (h : c ∉ post) : lastIdx c (l ++ post) = lastIdx c l := by
  induction l with
  | nil => simp [lastIdx_of_not_mem c post h, lastIdx]
  | cons a l' ih => simp [lastIdx, ih]

theorem GeminiAnalyzeApi.lastIdx_append_self (c : Char) (l : List Char) :
    lastIdx c (l ++ [c]) = some l.length := by
  induction l with
  | nil => simp [lastIdx]
  | cons a l' ih => simp [lastIdx, ih]

theorem GeminiAnalyzeApi.jsonSlice_wrapped (pre obj post : String) (mid : List Char)
    (hobj : obj.data = '{' :: mid ++ ['}'])
    (hpre : '{' ∉ pre.data) (hpost : '}' ∉ post.data) :
    jsonSlice (pre ++ obj ++ post) = obj := by
  have hdata : (pre ++ obj ++ post).data = pre.data ++ obj.data ++ post.data := rfl
  have hfirst : firstIdx '{' ((pre ++ obj ++ post).data) = some pre.data.length := by
    have hL : (pre ++ obj ++ post).data = pre.data ++ '{' :: (mid ++ '}' :: post.data) := by
      rw [hdata, hobj]
      simp
    rw [hL]
    exact firstIdx_append_of_not_mem '{' pre.data _ hpre
  have hlast : lastIdx '}' ((pre ++ obj ++ post).data)
      = some (pre.data.length + (mid.length + 1)) := by
    have hL : (pre ++ obj ++ post).data = ((pre.data ++ '{' :: mid) ++ ['}']) ++ post.data := by
      rw [hdata, hobj]
      simp
    rw [hL, lastIdx_append_of_not_mem '}' _ post.data hpost, lastIdx_append_self]
    simp
  unfold jsonSlice
  rw [hfirst, hlast]
  dsimp only
  rw [if_pos (by omega)]
  have htake : (pre ++ obj ++ post).data.take (pre.data.length + (mid.length + 1) + 1)
      = pre.data ++ obj.data := by
    have hsplit : (pre ++ obj ++ post).data = (pre.data ++ obj.data) ++ post.data := by
      rw [hdata]
    have hlen : (pre.data ++ obj.data).length = pre.data.length + (mid.length + 1) + 1 := by
      simp [hobj]
      omega
    rw [hsplit, ← hlen, List.take_left]
  rw [htake, List.drop_left]

theorem GeminiAnalyzeApi.exists_mid_of_shape (l : List Char)
    (hhead : l.head? = some '{') (hlast : l.getLast? = some '}') (hlen : 2 ≤ l.length) :
    ∃ mid, l = '{' :: mid ++ ['}'] := by
  cases l with
  | nil => simp at hhead
  | cons a t =>
    have ha : a = '{' := by simpa using hhead
    subst ha
    have ht : t ≠ [] := by
      intro he
      rw [he] at hlen
      simp at hlen
    have h1 : ('{' :: t).getLast? = some (('{' :: t).getLast (by simp)) :=
      List.getLast?_eq_getLast ('{' :: t) (by simp)
    rw [h1] at hlast
    have h2 : ('{' :: t).getLast (by simp) = '}' := Option.some.inj hlast
    rw [List.getLast_cons ht] at h2
    refine ⟨t.dropLast, ?_⟩
    have h3 : t.dropLast ++ [t.getLast ht] = t := List.dropLast_append_getLast ht
    rw [h2] at h3
    exact congrArg (fun l => '{' :: l) h3.symm

/-- C6 counterexample: the browser-direct `geminiService.ts` variant
passes the whole response text to `JSON.parse` without brace-slicing, so
the spec's prose-wrapped scenario text makes it raise the parse error
instead of returning the object parsed from the `{...}` span. -/
theorem c6_counterexample :
  (GeminiService.analyzeScriptAndGeneratePrompts "A lone astronaut drifts." none (some "k")
     (GeminiService.okResp ("Sure! " ++ wrappedJson ++ " Hope that helps."))).2
    = .error (.parseError "Gemini 返回的 JSON 格式不合法，解析失败。") := rfl

/-- C6 amended: the server handler (`part_001`) slices the model text
from the first `{` to the last `}` and replies 200 with the object parsed
from that span — in particular, for any text of the form
`prose ++ {object} ++ prose` with no `{` in the leading prose and no `}`
in the trailing prose; the direct `geminiService.ts` variant parses the
whole text without slicing, so prose-wrapped JSON fails there. -/
theorem c6_amended_theorem :
  ∀ (pre obj post : String) (o : List (String × String)),
    '{' ∉ pre.data → '}' ∉ post.data →
    obj.data.head? = some '{' → obj.data.getLast? = some '}' → 2 ≤ obj.data.length →
    parseStringObject obj = some o →
    GeminiAnalyzeApi.processText (pre ++ obj ++ post) = .okJson o := by
  intro pre obj post o hpre hpost hhead hlast hlen hparse
  obtain ⟨mid, hobj⟩ := GeminiAnalyzeApi.exists_mid_of_shape obj.data hhead hlast hlen
  unfold GeminiAnalyzeApi.processText
  rw [GeminiAnalyzeApi.jsonSlice_wrapped pre obj post mid hobj hpre hpost, hparse]

/-- C6 witness: the spec's scenario — `"Sure! {...} Hope that helps."`
parses through the handler to the four-field object. -/
theorem c6_witness :
  GeminiAnalyzeApi.processText ("Sure! " ++ wrappedJson ++ " Hope that helps.") = .okJson wrappedObj :=
  c6_amended_theorem "Sure! " wrappedJson " Hope that helps." wrappedObj
    (by decide) (by decide) (by decide) (by decide) (by decide) rfl

/-- C7 counterexample: a successfully parsed response missing three of the
four fields is returned as-is: the absent field reads as `undefined`
(`none`), not as the empty string. -/
theorem c7_counterexample :
  (GeminiService.analyzeScriptAndGeneratePrompts "hi" none (some "k")
     (GeminiService.okResp "\x7b\"summary\":\"s\"\x7d")).2 = .ok [("summary", "s")]
  ∧ lookupField [("summary", "s")] "mood" = none
  ∧ lookupField [("summary", "s")] "summary" = some "s" := ⟨rfl, rfl, rfl⟩

/-- C7 amended: both the direct client and the server handler return the
parsed object unchanged — no field is defaulted, and fields absent from
the parsed JSON remain absent in the result. -/
theorem c7_amended_theorem :
  (∀ (s key t : String) (resp : GeminiService.NetResponse) (o : List (String × String)),
     (jsTrim s).data.isEmpty = false → resp.ok = true → resp.text = some t →
     parseStringObject t = some o →
     (GeminiService.analyzeScriptAndGeneratePrompts s none (some key) resp).2 = .ok o)
  ∧ (∀ (t : String) (o : List (String × String)),
     parseStringObject (GeminiAnalyzeApi.jsonSlice t) = some o →
     GeminiAnalyzeApi.processText t = .okJson o) := by
  constructor
  · intro s key t resp o hs hok htext hparse
    obtain ⟨rok, rstatus, rerr, rstat, rtext⟩ := resp
    simp only at hok htext
    subst hok
    subst htext
    simp [GeminiService.analyzeScriptAndGeneratePrompts, hs, hparse]
  · intro t o hparse
    unfold GeminiAnalyzeApi.processText
    rw [hparse]

/-- C7 witness: a parse with all four fields present is returned exactly;
the handler path likewise. -/
theorem c7_witness :
  (GeminiService.analyzeScriptAndGeneratePrompts "hi" none (some "k")
     (GeminiService.okResp wrappedJson)).2 = .ok wrappedObj
  ∧ GeminiAnalyzeApi.processText "pre \x7b\"a\":\"b\"\x7d post" = .okJson [("a", "b")] :=
  ⟨c7_amended_theorem.1 "hi" "k" wrappedJson (GeminiService.okResp wrappedJson) wrappedObj
     rfl rfl rfl rfl,
   c7_amended_theorem.2 "pre \x7b\"a\":\"b\"\x7d post" [("a", "b")] rfl⟩

/-- C8: with blank script text and no media, all three analysis variants
fail with the validation error having performed zero network calls
(the server handler replies 400 — provided its key is configured, since
its key check precedes validation). -/
theorem c8_theorem :
  (∀ (s : String) (key : Option String) (resp : GeminiService.NetResponse),
     (jsTrim s).data.isEmpty = true →
     GeminiService.analyzeScriptAndGeneratePrompts s none key resp
       = ([], .error (.validationError "请至少提供视频或剧本/描述之一。")))
  ∧ (∀ (s : String) (vu : Option String) (resp : GeminiProxyClient.NetResponse),
     (jsTrim s).data.isEmpty = true → jsTruthyOpt vu = false →
     GeminiProxyClient.analyzeScriptAndGeneratePrompts s vu resp
       = (0, .error (.validationError "请至少提供视频或剧本/描述之一。")))
  ∧ (∀ (stO vu : Option String) (key : String)
       (vres : GeminiAnalyzeApi.VideoRes) (ures : GeminiAnalyzeApi.UpRes),
     (match stO with | some s => (jsTrim s).data.isEmpty | none => true) = true →
     jsTruthyOpt vu = false →
     GeminiAnalyzeApi.handler stO vu (some key) vres ures
       = ([], .err 400 "请至少提供视频或剧本/描述之一。")) := by
  refine ⟨?_, ?_, ?_⟩
  · intro s key resp hs
    simp [GeminiService.analyzeScriptAndGeneratePrompts, hs]
  · intro s vu resp hs hvu
    simp [GeminiProxyClient.analyzeScriptAndGeneratePrompts, hs, hvu]
  · intro stO vu key vres ures hs hvu
    simp [GeminiAnalyzeApi.handler, hs, hvu]

/-- C8 witness: whitespace-only script and no media in each variant. -/
theorem c8_witness :
  GeminiService.analyzeScriptAndGeneratePrompts "   " none (some "k") (GeminiService.okResp "x")
    = ([], .error (.validationError "请至少提供视频或剧本/描述之一。"))
  ∧ GeminiProxyClient.analyzeScriptAndGeneratePrompts "" none ⟨true, 200, "", "", []⟩
    = (0, .error (.validationError "请至少提供视频或剧本/描述之一。"))
  ∧ GeminiAnalyzeApi.handler (some " ") (some "") "k" ⟨true, 200, "", "b64"⟩ ⟨true, 200, none⟩
    = ([], .err 400 "请至少提供视频或剧本/描述之一。") :=
  ⟨c8_theorem.1 "   " (some "k") (GeminiService.okResp "x") rfl,
   c8_theorem.2.1 "" none ⟨true, 200, "", "", []⟩ rfl rfl,
   c8_theorem.2.2 (some " ") (some "") "k" ⟨true, 200, "", "b64"⟩ ⟨true, 200, none⟩ rfl rfl⟩

/-- C9 counterexample: the spec's scenario request contains exactly ONE
text part (the instruction and the script are combined into a single
string), not two. -/
theorem c9_counterexample :
  (GeminiService.analyzeScriptAndGeneratePrompts "A lone astronaut drifts." none (some "k")
     (GeminiService.okResp wrappedJson)).1
    = [[ReqPart.text (GeminiService.textPrompt "A lone astronaut drifts.")]]
  ∧ countTextParts [ReqPart.text (GeminiService.textPrompt "A lone astronaut drifts.")] = 1
  ∧ countMediaParts [ReqPart.text (GeminiService.textPrompt "A lone astronaut drifts.")] = 0 :=
  ⟨rfl, rfl, rfl⟩

/-- C9 amended: an analyze call with non-blank script and no media sends
exactly one request whose parts array holds exactly one text part — the
fixed instruction followed by the literal (trimmed) script text in a
single string — and zero media parts; likewise for the server handler. -/
theorem c9_amended_theorem :
  (∀ (s key : String) (resp : GeminiService.NetResponse),
     (jsTrim s).data.isEmpty = false →
     (GeminiService.analyzeScriptAndGeneratePrompts s none (some key) resp).1
       = [[ReqPart.text (GeminiService.textPrompt (jsTrim s))]]
     ∧ countTextParts [ReqPart.text (GeminiService.textPrompt (jsTrim s))] = 1
     ∧ countMediaParts [ReqPart.text (GeminiService.textPrompt (jsTrim s))] = 0)
  ∧ (∀ (s key : String) (vres : GeminiAnalyzeApi.VideoRes) (ures : GeminiAnalyzeApi.UpRes),
     (jsTrim s).data.isEmpty = false →
     (GeminiAnalyzeApi.handler (some s) none (some key) vres ures).1
       = [.postGemini [ReqPart.text (GeminiAnalyzeApi.textPrompt (jsTrim s))]]) := by
  constructor
  · intro s key resp hs
    refine ⟨?_, rfl, rfl⟩
    simp [GeminiService.analyzeScriptAndGeneratePrompts, GeminiService.buildParts, hs]
  · intro s key vres ures hs
    simp [GeminiAnalyzeApi.handler, hs]

set_option maxRecDepth 8000 in
/-- C9 witness: a concrete non-blank script with no media, for both the
direct client and the handler; the single text part contains the literal
script text. -/
theorem c9_witness :
  ((GeminiService.analyzeScriptAndGeneratePrompts "epic orchestral swell" none (some "k")
      (GeminiService.okResp wrappedJson)).1
    = [[ReqPart.text (GeminiService.textPrompt (jsTrim "epic orchestral swell"))]]
   ∧ countTextParts [ReqPart.text (GeminiService.textPrompt (jsTrim "epic orchestral swell"))] = 1
   ∧ countMediaParts [ReqPart.text (GeminiService.textPrompt (jsTrim "epic orchestral swell"))] = 0)
  ∧ (GeminiAnalyzeApi.handler (some "epic orchestral swell") none (some "k")
      ⟨true, 200, "", "b64"⟩ ⟨true, 200, none⟩).1
    = [.postGemini [ReqPart.text (GeminiAnalyzeApi.textPrompt (jsTrim "epic orchestral swell"))]]
  ∧ strContains (GeminiService.textPrompt (jsTrim "epic orchestral swell"))
      "epic orchestral swell" = true :=
  ⟨c9_amended_theorem.1 "epic orchestral swell" "k" (GeminiService.okResp wrappedJson) rfl,
   c9_amended_theorem.2 "epic orchestral swell" "k" ⟨true, 200, "", "b64"⟩ ⟨true, 200, none⟩ rfl,
   by decide⟩
